import Mathlib

/-!
Verification of the COVID-19 Risk Assessment app (src/app.py).

The app collects form selections, normalizes them to a fixed-order numeric
feature record via two dictionaries, and on a button press invokes an
external classifier, rendering one of two advisory blocks plus an optional
confidence annotation.  The embedding below follows app.py: dictionary
lookups that can raise KeyError become Option, the classifier calls that
can raise become Except, and the try/except structure of the button handler
becomes explicit control flow in `assess`.
-/

/-- Raw form selections: age from a bounded number input widget
(min_value=0, max_value=120), the other twelve fields from two-option
select boxes, kept as the literal strings the widgets produce. -/
structure Selections where
  age : Nat
  gender : String
  fever : String
  cough : String
  short_breath : String
  loss_of_taste_smell : String
  fatigue : String
  headache : String
  sore_throat : String
  nausea : String
  chest_pain : String
  diabetes : String
  hypertension : String

/-- The dictionary yes_no_map: "Yes" maps to 1, "No" maps to 0; looking up
any other key raises KeyError, embedded as none. -/
def yes_no_map : String → Option Nat
  | "Yes" => some 1
  | "No" => some 0
  | _ => none

/-- The dictionary gender_map: "Male" maps to 1, "Female" maps to 0;
any other key raises KeyError, embedded as none. -/
def gender_map : String → Option Nat
  | "Male" => some 1
  | "Female" => some 0
  | _ => none

/-- The option lists offered by the select boxes for the binary fields. -/
def binaryOptions : List String := ["No", "Yes"]

/-- The constraints the form widgets place on the selections: the number
input clamps age to [0, 120] and each select box only yields one of its
two options. -/
@[reducible] def validSelections (s : Selections) : Prop :=
  s.age ≤ 120 ∧ s.gender ∈ ["Male", "Female"] ∧
  s.fever ∈ binaryOptions ∧ s.cough ∈ binaryOptions ∧
  s.short_breath ∈ binaryOptions ∧ s.loss_of_taste_smell ∈ binaryOptions ∧
  s.fatigue ∈ binaryOptions ∧ s.headache ∈ binaryOptions ∧
  s.sore_throat ∈ binaryOptions ∧ s.nausea ∈ binaryOptions ∧
  s.chest_pain ∈ binaryOptions ∧ s.diabetes ∈ binaryOptions ∧
  s.hypertension ∈ binaryOptions

/-- The input_data dictionary built in app.py: field names in the literal
order of the source, age passed through, gender via gender_map, each binary
field via yes_no_map. -/
def input_data (s : Selections) : Option (List (String × Nat)) := do
  let g ← gender_map s.gender
  let fev ← yes_no_map s.fever
  let cou ← yes_no_map s.cough
  let sb ← yes_no_map s.short_breath
  let lts ← yes_no_map s.loss_of_taste_smell
  let fat ← yes_no_map s.fatigue
  let hea ← yes_no_map s.headache
  let sor ← yes_no_map s.sore_throat
  let nau ← yes_no_map s.nausea
  let cp ← yes_no_map s.chest_pain
  let dia ← yes_no_map s.diabetes
  let hyp ← yes_no_map s.hypertension
  pure [("age", s.age), ("gender", g), ("fever", fev), ("cough", cou),
        ("short_breath", sb), ("loss_of_taste_smell", lts), ("fatigue", fat),
        ("headache", hea), ("sore_throat", sor), ("nausea", nau),
        ("chest_pain", cp), ("diabetes", dia), ("hypertension", hyp)]

/-- The fixed documented field order of the feature record. -/
def featureNames : List String :=
  ["age", "gender", "fever", "cough", "short_breath", "loss_of_taste_smell",
   "fatigue", "headache", "sore_throat", "nausea", "chest_pain", "diabetes",
   "hypertension"]

/-- The feature record as an explicit function of the selections: age
unchanged, gender 1 exactly on "Male", each binary field 1 exactly on
"Yes".  `input_data_eq` below shows this is what app.py computes on every
valid selection. -/
def featureList (s : Selections) : List (String × Nat) :=
  [("age", s.age),
   ("gender", if s.gender = "Male" then 1 else 0),
   ("fever", if s.fever = "Yes" then 1 else 0),
   ("cough", if s.cough = "Yes" then 1 else 0),
   ("short_breath", if s.short_breath = "Yes" then 1 else 0),
   ("loss_of_taste_smell", if s.loss_of_taste_smell = "Yes" then 1 else 0),
   ("fatigue", if s.fatigue = "Yes" then 1 else 0),
   ("headache", if s.headache = "Yes" then 1 else 0),
   ("sore_throat", if s.sore_throat = "Yes" then 1 else 0),
   ("nausea", if s.nausea = "Yes" then 1 else 0),
   ("chest_pain", if s.chest_pain = "Yes" then 1 else 0),
   ("diabetes", if s.diabetes = "Yes" then 1 else 0),
   ("hypertension", if s.hypertension = "Yes" then 1 else 0)]

/-- The symptoms_count of the "Review Your Input" expander: the sum of the
yes_no_map lookups of the nine symptom fields. -/
def symptoms_count (s : Selections) : Option Nat := do
  let xs ← [s.fever, s.cough, s.short_breath, s.loss_of_taste_smell,
            s.fatigue, s.headache, s.sore_throat, s.nausea,
            s.chest_pain].mapM yes_no_map
  pure xs.sum

/-- The conditions_count of the "Review Your Input" expander: the sum of
the yes_no_map lookups of the two pre-existing condition fields. -/
def conditions_count (s : Selections) : Option Nat := do
  let xs ← [s.diabetes, s.hypertension].mapM yes_no_map
  pure xs.sum

/-- The rendered symptom-count line, with its literal "/9" denominator. -/
def symptoms_line (s : Selections) : Option String :=
  (symptoms_count s).map (fun c => "**Number of symptoms:** " ++ toString c ++ "/9")

/-- The rendered condition-count line, with its literal "/2" denominator. -/
def conditions_line (s : Selections) : Option String :=
  (conditions_count s).map (fun c => "**Pre-existing conditions:** " ++ toString c ++ "/2")

/-- Behaviour of the loaded classifier artifact on the single input row:
the result of predict (an array of labels, or a raised exception) and the
result of predict_proba (an array of probability rows, or a raised
exception / missing attribute).  Probabilities are embedded as rationals. -/
structure ModelBehavior where
  predictResult : Except Unit (List Int)
  probaResult : Except Unit (List (List Rat))

/-- The two advisory blocks the button handler can render. -/
inductive RiskBlock
  | highRisk
  | lowRisk
  deriving DecidableEq

/-- The error notices the button handler can render. -/
inductive ErrorNotice
  | modelNotLoaded
  | predictionError
  deriving DecidableEq

/-- What one press of the assess button renders: at most one risk block,
at most one confidence value, at most one error notice, and whether
model.predict was invoked. -/
structure RenderOutput where
  riskBlock : Option RiskBlock
  confidence : Option Rat
  notice : Option ErrorNotice
  predictCalled : Bool

/-- Python max over a list of probabilities; max of an empty list raises,
embedded as none. -/
def pyMax : List Rat → Option Rat
  | [] => none
  | x :: xs => some (xs.foldl max x)

/-- The inner try/except of the handler: take row 0 of predict_proba and
multiply its maximum by 100; any failure (raise, missing attribute, empty
array, empty row) is swallowed and confidence is None. -/
def computeConfidence (m : ModelBehavior) : Option Rat :=
  match m.probaResult with
  | .error _ => none
  | .ok rows =>
    match rows.head? with
    | none => none
    | some row =>
      match pyMax row with
      | none => none
      | some mx => some (mx * 100)

/-- The assess-button handler of app.py: if the model handle is None,
render the "Model not loaded" notice; otherwise call predict and take
element 0 (a raise or an out-of-range index reaches the outer except,
rendering the prediction-error notice and nothing else); on success render
the high-risk block exactly when the label equals 1 and the low-risk block
otherwise, with the confidence computed by the inner try/except. -/
def assess : Option ModelBehavior → RenderOutput
  | none =>
    { riskBlock := none, confidence := none,
      notice := some .modelNotLoaded, predictCalled := false }
  | some m =>
    match m.predictResult with
    | .error _ =>
      { riskBlock := none, confidence := none,
        notice := some .predictionError, predictCalled := true }
    | .ok preds =>
      match preds.head? with
      | none =>
        { riskBlock := none, confidence := none,
          notice := some .predictionError, predictCalled := true }
      | some label =>
        { riskBlock := some (if label = 1 then .highRisk else .lowRisk),
          confidence := computeConfidence m,
          notice := none, predictCalled := true }

/-- The ways loading the serialized artifact at startup can go: success,
the file is missing, or any other exception during deserialization. -/
inductive LoadOutcome
  | success (m : ModelBehavior)
  | fileNotFound
  | loadError (msg : String)

/-- load_model of app.py: joblib.load wrapped in try/except.  Returns the
model handle (None on failure) together with the error message shown by
st.error, if any. -/
def load_model : LoadOutcome → Option ModelBehavior × Option String
  | .success m => (some m, none)
  | .fileNotFound =>
      (none, some "Model file final_model.pkl not found. Please ensure the model file is in the same directory as this app.")
  | .loadError msg => (none, some ("Error loading model: " ++ msg))

/-- One decimal place rendering of a confidence percentage, as an exact
rational: round to the nearest tenth. -/
def roundTo1dp (q : Rat) : Rat := (round (q * 10) : Int) / 10

theorem yes_no_map_valid {x : String} (h : x ∈ binaryOptions) :
    yes_no_map x = some (if x = "Yes" then 1 else 0) := by
  simp [binaryOptions] at h
  rcases h with h | h <;> subst h <;> decide

theorem gender_map_valid {x : String} (h : x ∈ ["Male", "Female"]) :
    gender_map x = some (if x = "Male" then 1 else 0) := by
  simp at h
  rcases h with h | h <;> subst h <;> decide

theorem input_data_eq (s : Selections) (h : validSelections s) :
    input_data s = some (featureList s) := by
  obtain ⟨-, hg, h1, h2, h3, h4, h5, h6, h7, h8, h9, h10, h11⟩ := h
  simp [input_data, featureList, gender_map_valid hg, yes_no_map_valid h1,
        yes_no_map_valid h2, yes_no_map_valid h3, yes_no_map_valid h4,
        yes_no_map_valid h5, yes_no_map_valid h6, yes_no_map_valid h7,
        yes_no_map_valid h8, yes_no_map_valid h9, yes_no_map_valid h10,
        yes_no_map_valid h11]

/-- A concrete valid selection reused by witnesses: age 30, Male, fever and
cough Yes, everything else No. -/
def demoSelections : Selections :=
  ⟨30, "Male", "Yes", "Yes", "No", "No", "No", "No", "No", "No", "No", "No", "No"⟩

/-- C1: when the label-prediction succeeds, label 1 renders the high-risk
advisory block, label 0 renders the low-risk advisory block, and in every
successful case the rendered block is one of exactly these two — there is
no third rendering branch. -/
theorem c1_label_branching (m : ModelBehavior) (preds : List Int) (label : Int)
    (hp : m.predictResult = Except.ok preds) (hh : preds.head? = some label) :
    (label = 1 → (assess (some m)).riskBlock = some RiskBlock.highRisk) ∧
    (label = 0 → (assess (some m)).riskBlock = some RiskBlock.lowRisk) ∧
    ((assess (some m)).riskBlock = some RiskBlock.highRisk ∨
      (assess (some m)).riskBlock = some RiskBlock.lowRisk) := by
  refine ⟨fun h => by simp [assess, hp, hh, h], fun h => by simp [assess, hp, hh, h], ?_⟩
  by_cases h : label = 1
  · exact Or.inl (by simp [assess, hp, hh, h])
  · exact Or.inr (by simp [assess, hp, hh, h])

/-- Witness for C1 at a model whose predict returns the single label 1. -/
theorem c1_label_branching_witness :
    ((1 : Int) = 1 →
      (assess (some ⟨Except.ok [1], Except.error ()⟩)).riskBlock = some RiskBlock.highRisk) ∧
    ((1 : Int) = 0 →
      (assess (some ⟨Except.ok [1], Except.error ()⟩)).riskBlock = some RiskBlock.lowRisk) ∧
    ((assess (some ⟨Except.ok [1], Except.error ()⟩)).riskBlock = some RiskBlock.highRisk ∨
      (assess (some ⟨Except.ok [1], Except.error ()⟩)).riskBlock = some RiskBlock.lowRisk) :=
  c1_label_branching ⟨Except.ok [1], Except.error ()⟩ [1] 1 rfl rfl

/-- C2: on every valid form selection the normalizer maps "Yes" to 1 and
"No" to 0 on each of the eleven binary fields, "Male" to 1 and "Female" to
0 on gender, and passes age through unchanged — the record is exactly
`featureList`, with no other transformation, scaling, or validation. -/
theorem c2_normalizer_mapping (s : Selections) (h : validSelections s) :
    input_data s = some (featureList s) :=
  input_data_eq s h

/-- Witness for C2 at the concrete demo selection. -/
theorem c2_normalizer_mapping_witness :
    validSelections demoSelections ∧
    input_data demoSelections = some (featureList demoSelections) :=
  ⟨by decide, c2_normalizer_mapping demoSelections (by decide)⟩

/-- C3: on any load failure (missing file or any other deserialization
error) an error message is shown, the model handle is None, and every
subsequent assessment renders the model-not-loaded notice, renders no risk
block, and never calls predict. -/
theorem c3_load_failure (o : LoadOutcome)
    (h : o = LoadOutcome.fileNotFound ∨ ∃ msg, o = LoadOutcome.loadError msg) :
    (load_model o).1 = none ∧ (load_model o).2.isSome = true ∧
    (assess (load_model o).1).notice = some ErrorNotice.modelNotLoaded ∧
    (assess (load_model o).1).riskBlock = none ∧
    (assess (load_model o).1).predictCalled = false := by
  rcases h with h | ⟨msg, h⟩ <;> subst h <;> exact ⟨rfl, rfl, rfl, rfl, rfl⟩

/-- Witness for C3 at the missing-file outcome. -/
theorem c3_load_failure_witness :
    (load_model LoadOutcome.fileNotFound).1 = none ∧
    (load_model LoadOutcome.fileNotFound).2.isSome = true ∧
    (assess (load_model LoadOutcome.fileNotFound).1).notice = some ErrorNotice.modelNotLoaded ∧
    (assess (load_model LoadOutcome.fileNotFound).1).riskBlock = none ∧
    (assess (load_model LoadOutcome.fileNotFound).1).predictCalled = false :=
  c3_load_failure LoadOutcome.fileNotFound (Or.inl rfl)

/-- C4: if predict raises on an assessment trigger, no risk block of either
kind is rendered, no confidence is shown, and the prediction-error notice
appears. -/
theorem c4_predict_failure (m : ModelBehavior) (e : Unit)
    (hp : m.predictResult = Except.error e) :
    (assess (some m)).riskBlock = none ∧
    (assess (some m)).confidence = none ∧
    (assess (some m)).notice = some ErrorNotice.predictionError := by
  simp [assess, hp]

/-- Witness for C4 at a model whose predict raises. -/
theorem c4_predict_failure_witness :
    (assess (some ⟨Except.error (), Except.ok []⟩)).riskBlock = none ∧
    (assess (some ⟨Except.error (), Except.ok []⟩)).confidence = none ∧
    (assess (some ⟨Except.error (), Except.ok []⟩)).notice = some ErrorNotice.predictionError :=
  c4_predict_failure ⟨Except.error (), Except.ok []⟩ () rfl

theorem pyMax_eq_max? (l : List Rat) : pyMax l = l.max? := by
  cases l <;> rfl

theorem pyMax_mem {l : List Rat} {a : Rat} (h : pyMax l = some a) : a ∈ l :=
  List.max?_mem (fun x y => max_choice x y) ((pyMax_eq_max? l) ▸ h)

theorem pyMax_is_ub {l : List Rat} {a : Rat} (h : pyMax l = some a) :
    ∀ b ∈ l, b ≤ a := by
  have h' : l.max? = some a := (pyMax_eq_max? l) ▸ h
  exact (List.max?_le_iff (fun x y z => max_le_iff) h').mp le_rfl


theorem roundTo1dp_bounds {q : Rat} (h0 : 0 ≤ q) (h1 : q ≤ 100) :
    0 ≤ roundTo1dp q ∧ roundTo1dp q ≤ 100 := by
  have hr := round_eq (q * 10)
  have hl : (0 : Int) ≤ round (q * 10) := by
    rw [hr]
    exact Int.le_floor.mpr (by push_cast; linarith)
  have hc : (⌊(1000 : Rat) + 1 / 2⌋ : Int) = 1000 :=
    Int.floor_eq_iff.mpr ⟨by norm_num, by norm_num⟩
  have hu : round (q * 10) ≤ 1000 := by
    rw [hr]
    calc (⌊q * 10 + 1 / 2⌋ : Int) ≤ ⌊(1000 : Rat) + 1 / 2⌋ :=
          Int.floor_mono (by linarith)
    _ = 1000 := hc
  constructor
  · exact div_nonneg (by exact_mod_cast hl) (by norm_num)
  · rw [roundTo1dp, div_le_iff₀ (by norm_num : (0 : Rat) < 10)]
    calc ((round (q * 10) : Int) : Rat) ≤ (1000 : Int) := by exact_mod_cast hu
    _ = 100 * 10 := by norm_num

/-- C5: when a confidence value is shown and predict_proba returned
probabilities in [0, 1], the confidence equals the maximum class
probability times 100, lies in [0, 100], and its one-decimal rendering
also lies in [0, 100]. -/
theorem c5_confidence_bounds (m : ModelBehavior) (preds : List Int)
    (label : Int) (rows : List (List Rat)) (row : List Rat) (mx : Rat)
    (hp : m.predictResult = Except.ok preds) (hh : preds.head? = some label)
    (hq : m.probaResult = Except.ok rows) (hr : rows.head? = some row)
    (hm : pyMax row = some mx) (hbound : ∀ p ∈ row, 0 ≤ p ∧ p ≤ 1) :
    (assess (some m)).confidence = some (mx * 100) ∧
    0 ≤ mx * 100 ∧ mx * 100 ≤ 100 ∧
    0 ≤ roundTo1dp (mx * 100) ∧ roundTo1dp (mx * 100) ≤ 100 := by
  obtain ⟨hm0, hm1⟩ := hbound mx (pyMax_mem hm)
  have hconf : (assess (some m)).confidence = some (mx * 100) := by
    simp [assess, hp, hh, computeConfidence, hq, hr, hm]
  have hb := roundTo1dp_bounds (q := mx * 100) (by linarith) (by linarith)
  exact ⟨hconf, by linarith, by linarith, hb.1, hb.2⟩

/-- Witness for C5 at a model with probabilities 1/4 and 3/4. -/
theorem c5_confidence_bounds_witness :
    (assess (some ⟨Except.ok [1], Except.ok [[1/4, 3/4]]⟩)).confidence
        = some ((3 / 4 : Rat) * 100) ∧
    0 ≤ (3 / 4 : Rat) * 100 ∧ (3 / 4 : Rat) * 100 ≤ 100 ∧
    0 ≤ roundTo1dp ((3 / 4 : Rat) * 100) ∧ roundTo1dp ((3 / 4 : Rat) * 100) ≤ 100 :=
  c5_confidence_bounds ⟨Except.ok [1], Except.ok [[1/4, 3/4]]⟩ [1] 1
    [[1/4, 3/4]] [1/4, 3/4] (3/4) rfl rfl rfl rfl (by norm_num [pyMax])
    (by intro p hp; fin_cases hp <;> norm_num)

/-- C6: if predict_proba fails or is unsupported while predict succeeded,
the confidence is omitted (None), the advisory block for the predicted
label is still rendered, and no error notice appears. -/
theorem c6_proba_failure_nonfatal (m : ModelBehavior) (preds : List Int)
    (label : Int) (e : Unit)
    (hp : m.predictResult = Except.ok preds) (hh : preds.head? = some label)
    (hq : m.probaResult = Except.error e) :
    (assess (some m)).confidence = none ∧
    (assess (some m)).riskBlock =
      some (if label = 1 then RiskBlock.highRisk else RiskBlock.lowRisk) ∧
    (assess (some m)).notice = none := by
  refine ⟨?_, ?_, ?_⟩ <;> simp [assess, hp, hh, computeConfidence, hq]

/-- Witness for C6 at a model whose predict_proba raises. -/
theorem c6_proba_failure_nonfatal_witness :
    (assess (some ⟨Except.ok [0], Except.error ()⟩)).confidence = none ∧
    (assess (some ⟨Except.ok [0], Except.error ()⟩)).riskBlock =
      some (if (0 : Int) = 1 then RiskBlock.highRisk else RiskBlock.lowRisk) ∧
    (assess (some ⟨Except.ok [0], Except.error ()⟩)).notice = none :=
  c6_proba_failure_nonfatal ⟨Except.ok [0], Except.error ()⟩ [0] 0 () rfl rfl rfl

/-- C7: on every valid selection the feature record exists, has exactly 13
fields in the documented order, starts with age unchanged and at most 120,
and every later field is 0 or 1. -/
theorem c7_feature_record_invariant (s : Selections) (h : validSelections s) :
    ∃ r, input_data s = some r ∧ r.length = 13 ∧
      r.map Prod.fst = featureNames ∧
      r.head? = some ("age", s.age) ∧ s.age ≤ 120 ∧
      ∀ p ∈ r.drop 1, p.2 = 0 ∨ p.2 = 1 := by
  refine ⟨featureList s, input_data_eq s h, rfl, rfl, rfl, h.1, ?_⟩
  intro p hp
  simp only [featureList, List.drop, List.mem_cons, List.not_mem_nil, or_false] at hp
  rcases hp with hp | hp | hp | hp | hp | hp | hp | hp | hp | hp | hp | hp <;>
    subst hp <;> dsimp <;> split <;> simp

/-- Witness for C7 at the concrete demo selection. -/
theorem c7_feature_record_invariant_witness :
    validSelections demoSelections ∧
    ∃ r, input_data demoSelections = some r ∧ r.length = 13 ∧
      r.map Prod.fst = featureNames ∧
      r.head? = some ("age", demoSelections.age) ∧ demoSelections.age ≤ 120 ∧
      ∀ p ∈ r.drop 1, p.2 = 0 ∨ p.2 = 1 :=
  ⟨by decide, c7_feature_record_invariant demoSelections (by decide)⟩

/-- C8: for age 30, Male, fever Yes, cough Yes and all other binary fields
No, the feature record is exactly the documented one and the review
expander displays 2 of 9 symptoms and 0 of 2 pre-existing conditions. -/
theorem c8_demo_scenario :
    input_data demoSelections = some
      [("age", 30), ("gender", 1), ("fever", 1), ("cough", 1),
       ("short_breath", 0), ("loss_of_taste_smell", 0), ("fatigue", 0),
       ("headache", 0), ("sore_throat", 0), ("nausea", 0),
       ("chest_pain", 0), ("diabetes", 0), ("hypertension", 0)] ∧
    symptoms_count demoSelections = some 2 ∧
    conditions_count demoSelections = some 0 ∧
    symptoms_line demoSelections = some "**Number of symptoms:** 2/9" ∧
    conditions_line demoSelections = some "**Pre-existing conditions:** 0/2" := by
  refine ⟨rfl, rfl, rfl, rfl, rfl⟩

/-- C9: the rendering branch only tests whether the label equals 1, so any
label other than 1 — including labels that are neither 0 nor 1 — renders
the low-risk advisory block. -/
theorem c9_non_one_label_low_risk (m : ModelBehavior) (preds : List Int)
    (label : Int) (hp : m.predictResult = Except.ok preds)
    (hh : preds.head? = some label) (hne : label ≠ 1) :
    (assess (some m)).riskBlock = some RiskBlock.lowRisk := by
  simp [assess, hp, hh, hne]

/-- Witness for C9 at the out-of-range label 2. -/
theorem c9_non_one_label_low_risk_witness :
    (assess (some ⟨Except.ok [2], Except.error ()⟩)).riskBlock
      = some RiskBlock.lowRisk :=
  c9_non_one_label_low_risk ⟨Except.ok [2], Except.error ()⟩ [2] 2 rfl rfl
    (by decide)

/-- C10: if predict returns an empty, non-indexable result, taking element
0 raises inside the outer try, so the assessment renders the
prediction-error notice and no risk block, and the handler still returns a
value (no crash). -/
theorem c10_empty_predict_result (m : ModelBehavior)
    (hp : m.predictResult = Except.ok []) :
    (assess (some m)).riskBlock = none ∧
    (assess (some m)).confidence = none ∧
    (assess (some m)).notice = some ErrorNotice.predictionError := by
  refine ⟨?_, ?_, ?_⟩ <;> simp [assess, hp]

/-- Witness for C10 at a model whose predict returns an empty array. -/
theorem c10_empty_predict_result_witness :
    (assess (some ⟨Except.ok [], Except.ok [[1]]⟩)).riskBlock = none ∧
    (assess (some ⟨Except.ok [], Except.ok [[1]]⟩)).confidence = none ∧
    (assess (some ⟨Except.ok [], Except.ok [[1]]⟩)).notice
      = some ErrorNotice.predictionError :=
  c10_empty_predict_result ⟨Except.ok [], Except.ok [[1]]⟩ rfl
